import Mathlib

/-!
Verification of the FOCUS presenter-intent inference engine
(`src/intent/focus-algorithm.ts` and `src/shared/types/focus.ts`).

Modelling conventions:
* Millisecond timestamps, pixel coordinates and speeds are integers (`ℤ`),
  following the data model (integer pixel rectangles, millisecond ticks).
* Every confidence-like quantity in the source (base confidences, the four
  additive modifiers, the switch/stay thresholds, the clamp bounds 0 and 1)
  is an exact multiple of 0.01, and the engine only ever adds, subtracts,
  clamps and compares them, so they are represented exactly in hundredths:
  the integer `c` stands for the JS number `c / 100` (`confValue`).  All
  comparisons the source performs are therefore reproduced exactly; this
  also sidesteps double-precision noise, which never flips any comparison
  at these magnitudes.
* The `Map<ScreenId, DisplayBounds>` is modelled as a `List DisplayBounds`
  in JS-`Map` iteration order (insertion order, with `set` on an existing
  key replacing in place), built by `mkDisplayMap`.
* `string | null` fields are `Option String`; TS string-truthiness tests
  (`if (signal.screenId && ...)`) compare against the empty string.
* The two observer callbacks are modelled by returning the list of emitted
  outputs (`Output.focusChange` / `Output.focusState`) from each entry
  point; `Date.now()` is modelled as an explicit `wallClock` argument
  threaded to `getState`, exactly where the source reads the clock.
-/

namespace Focus

/-- SignalType from `shared/types/focus.ts` (closed string enum). -/
inductive SignalType where
  | manual
  | click
  | dragStart
  | dragEnd
  | doubleClick
  | windowFocus
  | typing
  | scroll
  | gesture
  | hover
  | pointerMove
deriving DecidableEq

/-- SIGNAL_PRIORITY table: lower number = higher priority. -/
def signalPriority : SignalType → ℤ
  | SignalType.manual => 0
  | SignalType.click => 1
  | SignalType.dragStart => 1
  | SignalType.dragEnd => 2
  | SignalType.doubleClick => 1
  | SignalType.windowFocus => 3
  | SignalType.typing => 4
  | SignalType.scroll => 5
  | SignalType.gesture => 6
  | SignalType.hover => 7
  | SignalType.pointerMove => 8

/-- BASE_CONFIDENCE table from `shared/types/focus.ts`, in hundredths
(1.00 → 100, 0.95 → 95, ...). -/
def baseConfidence : SignalType → ℤ
  | SignalType.manual => 100
  | SignalType.click => 95
  | SignalType.dragStart => 95
  | SignalType.dragEnd => 85
  | SignalType.doubleClick => 95
  | SignalType.windowFocus => 90
  | SignalType.typing => 90
  | SignalType.scroll => 85
  | SignalType.gesture => 85
  | SignalType.hover => 70
  | SignalType.pointerMove => 40

/-- Interpretation of a fixed-point hundredths value as the JS number it
stands for. -/
def confValue (c : ℤ) : ℚ := (c : ℚ) / 100

/-- DisplayBounds record. -/
structure DisplayBounds where
  screenId : String
  x : ℤ
  y : ℤ
  width : ℤ
  height : ℤ
  dpiScale : ℚ
deriving DecidableEq

/-- IntentSignal record.  `screenId` is a plain string in the source
(`""` plays the role of "not pre-attributed" under JS truthiness);
`speedPxPerS` and `windowDisplayId` are optional fields. -/
structure IntentSignal where
  type : SignalType
  screenId : String
  x : ℤ
  y : ℤ
  timestampMs : ℤ
  speedPxPerS : Option ℤ := none
  windowDisplayId : Option String := none
deriving DecidableEq

/-- FocusChangeEvent record (the `type: 'focus_change'` tag is implicit). -/
structure FocusChangeEvent where
  sessionId : String
  screenId : String
  reason : SignalType
  /-- confidence in hundredths (`confValue`) -/
  confidence : ℤ
  dwellMs : ℤ
  sequence : ℕ
  timestampMs : ℤ
deriving DecidableEq

/-- The `mode` field of a snapshot. -/
inductive FocusMode where
  | auto
  | manual
  | frozen
deriving DecidableEq

/-- FocusStateSnapshot record (the `type: 'focus_state'` tag is implicit). -/
structure FocusStateSnapshot where
  activeScreenId : String
  mode : FocusMode
  frozen : Bool
  sequence : ℕ
  timestampMs : ℤ
deriving DecidableEq

/-- FocusConfig record. -/
structure FocusConfig where
  maxScreens : ℤ
  /-- in hundredths (`confValue`) -/
  switchThreshold : ℤ
  /-- in hundredths (`confValue`) -/
  stayThreshold : ℤ
  cooldownMs : ℤ
  idleMs : ℤ
  idleMotionPxPerS : ℤ
  clickDwellMs : ℤ
  typingDwellMs : ℤ
  scrollDwellMs : ℤ
  hoverDwellMs : ℤ
  movementDwellMs : ℤ
  movementSpeedHighPxPerS : ℤ
  hoverRadiusPx : ℤ
  resumeGraceMs : ℤ
deriving DecidableEq

/-- DEFAULT_FOCUS_CONFIG from `shared/types/focus.ts`. -/
def DEFAULT_FOCUS_CONFIG : FocusConfig where
  maxScreens := 3
  switchThreshold := 80
  stayThreshold := 50
  cooldownMs := 500
  idleMs := 2000
  idleMotionPxPerS := 5
  clickDwellMs := 300
  typingDwellMs := 300
  scrollDwellMs := 300
  hoverDwellMs := 500
  movementDwellMs := 800
  movementSpeedHighPxPerS := 1200
  hoverRadiusPx := 8
  resumeGraceMs := 300

/-- `Partial<FocusConfig>` as passed to the constructor: every field optional. -/
structure FocusConfigPatch where
  maxScreens : Option ℤ := none
  switchThreshold : Option ℤ := none
  stayThreshold : Option ℤ := none
  cooldownMs : Option ℤ := none
  idleMs : Option ℤ := none
  idleMotionPxPerS : Option ℤ := none
  clickDwellMs : Option ℤ := none
  typingDwellMs : Option ℤ := none
  scrollDwellMs : Option ℤ := none
  hoverDwellMs : Option ℤ := none
  movementDwellMs : Option ℤ := none
  movementSpeedHighPxPerS : Option ℤ := none
  hoverRadiusPx : Option ℤ := none
  resumeGraceMs : Option ℤ := none

/-- The spread `{ ...DEFAULT_FOCUS_CONFIG, ...config }` in the constructor. -/
def mergeConfig (base : FocusConfig) (p : FocusConfigPatch) : FocusConfig where
  maxScreens := p.maxScreens.getD base.maxScreens
  switchThreshold := p.switchThreshold.getD base.switchThreshold
  stayThreshold := p.stayThreshold.getD base.stayThreshold
  cooldownMs := p.cooldownMs.getD base.cooldownMs
  idleMs := p.idleMs.getD base.idleMs
  idleMotionPxPerS := p.idleMotionPxPerS.getD base.idleMotionPxPerS
  clickDwellMs := p.clickDwellMs.getD base.clickDwellMs
  typingDwellMs := p.typingDwellMs.getD base.typingDwellMs
  scrollDwellMs := p.scrollDwellMs.getD base.scrollDwellMs
  hoverDwellMs := p.hoverDwellMs.getD base.hoverDwellMs
  movementDwellMs := p.movementDwellMs.getD base.movementDwellMs
  movementSpeedHighPxPerS := p.movementSpeedHighPxPerS.getD base.movementSpeedHighPxPerS
  hoverRadiusPx := p.hoverRadiusPx.getD base.hoverRadiusPx
  resumeGraceMs := p.resumeGraceMs.getD base.resumeGraceMs

/-- FocusAlgorithmState record. -/
structure FocusAlgorithmState where
  activeScreenId : Option String
  frozen : Bool
  autoEnabled : Bool
  manualOverride : Option String
  lastSwitchTs : ℤ
  candidateScreenId : Option String
  candidateSinceTs : ℤ
  lastActivityTs : ℤ
  sequence : ℕ
deriving DecidableEq

/-- PresenterControlAction enum. -/
inductive PresenterControlAction where
  | toggleAutoFocus
  | toggleFreeze
  | manualSelect
  | clearManual
deriving DecidableEq

/-- PresenterControl record (`screenId` optional). -/
structure PresenterControl where
  action : PresenterControlAction
  screenId : Option String := none
  timestampMs : ℤ
deriving DecidableEq

/-- FocusMetrics; `signalCounts` is the JS object `Record<string, number>`
modelled as an association list in key-insertion order. -/
structure FocusMetrics where
  focusChanges : ℕ
  cooldownBlocks : ℕ
  dwellResets : ℕ
  idleBlocks : ℕ
  signalCounts : List (SignalType × ℕ)
deriving DecidableEq

/-- The engine object: private fields of class FocusAlgorithm. -/
structure FocusAlgorithm where
  state : FocusAlgorithmState
  config : FocusConfig
  displays : List DisplayBounds
  sessionId : String
  metrics : FocusMetrics
deriving DecidableEq

/-- A callback invocation recorded during one entry-point call. -/
inductive Output where
  | focusChange (e : FocusChangeEvent)
  | focusState (s : FocusStateSnapshot)
deriving DecidableEq

/-- `signalCounts[type] = (signalCounts[type] || 0) + 1` on a JS object. -/
def bumpCount (l : List (SignalType × ℕ)) (t : SignalType) : List (SignalType × ℕ) :=
  if l.any (fun p => p.1 == t) then
    l.map (fun p => if p.1 == t then (p.1, p.2 + 1) else p)
  else
    l ++ [(t, 1)]

/-- Current value of a counter in `signalCounts` (0 when absent). -/
def getCount (l : List (SignalType × ℕ)) (t : SignalType) : ℕ :=
  ((l.find? (fun p => p.1 == t)).map Prod.snd).getD 0

/-- `Map.set` semantics: replace in place when the key exists, else append. -/
def mapInsert (l : List DisplayBounds) (d : DisplayBounds) : List DisplayBounds :=
  if l.any (fun e => e.screenId == d.screenId) then
    l.map (fun e => if e.screenId == d.screenId then d else e)
  else
    l ++ [d]

/-- `new Map(displays.map(d => [d.screenId, d]))` in iteration order. -/
def mkDisplayMap (ds : List DisplayBounds) : List DisplayBounds :=
  ds.foldl mapInsert []

/-- `this.displays.has(sid)`. -/
def hasDisplay (ds : List DisplayBounds) (sid : String) : Bool :=
  ds.any (fun d => d.screenId == sid)

/-- The constructor `new FocusAlgorithm(sessionId, displays, config)`.
Note: it performs no validation of the configuration whatsoever. -/
def mkFocusAlgorithm (sessionId : String) (displays : List DisplayBounds)
    (patch : FocusConfigPatch) : FocusAlgorithm where
  sessionId := sessionId
  config := mergeConfig DEFAULT_FOCUS_CONFIG patch
  displays := mkDisplayMap displays
  state :=
    { activeScreenId := match displays with
        | [] => none
        | d :: _ => some d.screenId
      frozen := false
      autoEnabled := true
      manualOverride := none
      lastSwitchTs := 0
      candidateScreenId := none
      candidateSinceTs := 0
      lastActivityTs := 0
      sequence := 0 }
  metrics :=
    { focusChanges := 0
      cooldownBlocks := 0
      dwellResets := 0
      idleBlocks := 0
      signalCounts := [] }

/-- Half-open rectangle membership test from the attribution loop:
`x >= bounds.x && x < bounds.x + width && y >= bounds.y && y < bounds.y + height`. -/
def containsPoint (b : DisplayBounds) (x y : ℤ) : Bool :=
  decide (b.x ≤ x ∧ x < b.x + b.width ∧ b.y ≤ y ∧ y < b.y + b.height)

/-- Squared euclidean distance from the point to the rectangle:
`dx = Math.max(bounds.x - x, 0, x - (bounds.x + bounds.width))` and
similarly `dy`; the source then forms `dist = sqrt(dx*dx + dy*dy)` and
`proximity = 1 / (1 + dist)`. -/
def rectDistSq (b : DisplayBounds) (x y : ℤ) : ℤ :=
  let dx := max (b.x - x) (max 0 (x - (b.x + b.width)))
  let dy := max (b.y - y) (max 0 (y - (b.y + b.height)))
  dx * dx + dy * dy

/-- The `for (const [screenId, bounds] of this.displays)` loop of
`attributeToScreen`.  The accumulator `none` models the initial
`bestOverlap = -1` (every proximity beats it: proximities are positive);
for two realized candidates the source's strict test
`proximity > bestOverlap`, i.e. `1/(1+√d) > 1/(1+√bd)`, holds iff
`d < bd` because `t ↦ 1/(1+√t)` is strictly antitone on `[0, ∞)`, so the
loop is computed on exact squared distances. -/
def pointerLoop (x y : ℤ) : List DisplayBounds → Option (String × ℤ) → Option String
  | [], best => best.map Prod.fst
  | b :: rest, best =>
    if containsPoint b x y then some b.screenId
    else
      match best with
      | none => pointerLoop x y rest (some (b.screenId, rectDistSq b x y))
      | some (bid, bd) =>
        if rectDistSq b x y < bd then pointerLoop x y rest (some (b.screenId, rectDistSq b x y))
        else pointerLoop x y rest (some (bid, bd))

/-- `attributeToScreen` (§6): direct screen id, then window-focus display,
then pointer-based attribution. -/
def attributeToScreen (ds : List DisplayBounds) (s : IntentSignal) : Option String :=
  if s.screenId != "" && hasDisplay ds s.screenId then some s.screenId
  else if s.type == SignalType.windowFocus
      && (match s.windowDisplayId with
          | some w => w != "" && hasDisplay ds w
          | none => false) then
    s.windowDisplayId
  else
    pointerLoop s.x s.y ds none

/-- `signal.speedPxPerS !== undefined && signal.speedPxPerS > config.movementSpeedHighPxPerS`. -/
def speedHigh (cfg : FocusConfig) (s : IntentSignal) : Bool :=
  match s.speedPxPerS with
  | some sp => decide (sp > cfg.movementSpeedHighPxPerS)
  | none => false

/-- `computeConfidence` (§7): base value plus the four additive modifiers
(+0.05, +0.05, -0.10, -0.15 in hundredths), clamped to `[0, 1]` = `[0, 100]`
hundredths. -/
def computeConfidence (st : FocusAlgorithmState) (cfg : FocusConfig)
    (s : IntentSignal) (cand : String) (now : ℤ) : ℤ :=
  let conf := baseConfidence s.type
  let conf := if s.windowDisplayId = some cand then conf + 5 else conf
  let conf := if st.candidateScreenId = some cand ∧ now - st.candidateSinceTs < 1000 then
      conf + 5
    else conf
  let conf := if s.type = SignalType.pointerMove ∧ speedHigh cfg s then conf - 10 else conf
  let conf := if some cand ≠ st.activeScreenId ∧ now - st.lastSwitchTs ≤ cfg.cooldownMs then
      conf - 15
    else conf
  max 0 (min 100 conf)

/-- `getDwellMs` (§8.1). -/
def getDwellMs (cfg : FocusConfig) : SignalType → ℤ
  | SignalType.manual => 0
  | SignalType.click => cfg.clickDwellMs
  | SignalType.doubleClick => cfg.clickDwellMs
  | SignalType.dragStart => cfg.clickDwellMs
  | SignalType.typing => cfg.typingDwellMs
  | SignalType.windowFocus => cfg.typingDwellMs
  | SignalType.scroll => cfg.scrollDwellMs
  | SignalType.gesture => cfg.scrollDwellMs
  | SignalType.hover => cfg.hoverDwellMs
  | SignalType.pointerMove => cfg.movementDwellMs
  | SignalType.dragEnd => cfg.movementDwellMs

/-- `isIdle` (§10): `now - lastActivityTs > idleMs`. -/
def isIdle (st : FocusAlgorithmState) (cfg : FocusConfig) (now : ℤ) : Bool :=
  decide (now - st.lastActivityTs > cfg.idleMs)

/-- Activity signals: anything that isn't pointer movement or hover. -/
def isActivitySignal (t : SignalType) : Bool :=
  t != SignalType.pointerMove && t != SignalType.hover

/-- `Math.round(confidence * 100) / 100`.  The argument is a hundredths
value `c`, i.e. the JS number `c / 100`, so the source computes
`Math.round((c / 100) * 100) / 100 = ⌊c + 1/2⌋ / 100 = c / 100` — on this
representation the rounding is the identity (`round100_exact` below checks
this against the literal formula). -/
def round100 (c : ℤ) : ℤ := c

/-- `setActive` (state transition + FocusChangeEvent construction). -/
def setActive (a : FocusAlgorithm) (screenId : String) (reason : SignalType)
    (confidence : ℤ) (now : ℤ) : FocusAlgorithm × FocusChangeEvent :=
  let seq := a.state.sequence + 1
  let dwell := now - a.state.candidateSinceTs
  let st := { a.state with
    activeScreenId := some screenId
    lastSwitchTs := now
    sequence := seq }
  let m := { a.metrics with focusChanges := a.metrics.focusChanges + 1 }
  ({ a with state := st, metrics := m },
   { sessionId := a.sessionId
     screenId := screenId
     reason := reason
     confidence := round100 confidence
     dwellMs := dwell
     sequence := seq
     timestampMs := now })

/-- `getState`: snapshot for late joiners.  `activeScreenId || 'screen_1'`
falls back on `null` (and on the empty string, JS-falsy); `timestampMs`
is `Date.now()`, modelled by the explicit `wallClock` argument. -/
def getState (a : FocusAlgorithm) (wallClock : ℤ) : FocusStateSnapshot where
  activeScreenId :=
    match a.state.activeScreenId with
    | some sid => if sid == "" then "screen_1" else sid
    | none => "screen_1"
  mode :=
    if (match a.state.manualOverride with
        | some s => s != ""
        | none => false) then FocusMode.manual
    else if a.state.frozen then FocusMode.frozen
    else FocusMode.auto
  frozen := a.state.frozen
  sequence := a.state.sequence
  timestampMs := wallClock

/-- Metrics/activity bookkeeping at the top of `processSignal`:
`signalCounts[type]++` and, for activity signals, `lastActivityTs = now`. -/
def trackSignal (a : FocusAlgorithm) (signal : IntentSignal) : FocusAlgorithm :=
  { a with
    metrics := { a.metrics with signalCounts := bumpCount a.metrics.signalCounts signal.type }
    state := if isActivitySignal signal.type then
        { a.state with lastActivityTs := signal.timestampMs }
      else a.state }

/-- `this.metrics.idleBlocks++`. -/
def bumpIdle (a : FocusAlgorithm) : FocusAlgorithm :=
  { a with metrics := { a.metrics with idleBlocks := a.metrics.idleBlocks + 1 } }

/-- `this.metrics.cooldownBlocks++`. -/
def bumpCooldown (a : FocusAlgorithm) : FocusAlgorithm :=
  { a with metrics := { a.metrics with cooldownBlocks := a.metrics.cooldownBlocks + 1 } }

/-- Candidate tracking (§9): new candidate screen, dwell timer reset,
`dwellResets++`. -/
def resetCandidate (a : FocusAlgorithm) (cand : String) (now : ℤ) : FocusAlgorithm :=
  { a with
    state := { a.state with candidateScreenId := some cand, candidateSinceTs := now }
    metrics := { a.metrics with dwellResets := a.metrics.dwellResets + 1 } }

/-- `processSignal` (§4.3 pipeline), returning the updated engine and the
list of callback invocations it performed. -/
def processSignal (a : FocusAlgorithm) (signal : IntentSignal) (wallClock : ℤ) :
    FocusAlgorithm × List Output :=
  let now := signal.timestampMs
  let a1 := trackSignal a signal
  if a1.state.frozen then (a1, [])
  else if a1.state.autoEnabled = false then (a1, [])
  else
    match a1.state.manualOverride with
    | some ov =>
      if a1.state.activeScreenId ≠ some ov then
        let p := setActive a1 ov SignalType.manual 100 now
        (p.1, [Output.focusChange p.2])
      else (a1, [])
    | none =>
      match attributeToScreen a1.displays signal with
      | none => (a1, [])
      | some cand =>
        let conf0 := computeConfidence a1.state a1.config signal cand now
        if isIdle a1.state a1.config now then (bumpIdle a1, [])
        else
          let inCooldown : Bool :=
            decide (now - a1.state.lastSwitchTs ≤ a1.config.cooldownMs) &&
              signal.type != SignalType.manual
          let conf1 := if inCooldown then
              (if conf0 - 15 < 0 then 0 else conf0 - 15)
            else conf0
          let a2 := if inCooldown then bumpCooldown a1 else a1
          let a3 := if some cand ≠ a2.state.candidateScreenId then
              resetCandidate a2 cand now
            else a2
          let dwellNeeded := getDwellMs a3.config signal.type
          let dwellElapsed := now - a3.state.candidateSinceTs
          if dwellElapsed < dwellNeeded then (a3, [])
          else if some cand ≠ a3.state.activeScreenId then
            if conf1 ≥ a3.config.switchThreshold then
              let p := setActive a3 cand signal.type conf1 now
              (p.1, [Output.focusChange p.2])
            else (a3, [])
          else
            if conf1 ≥ a3.config.stayThreshold then
              (a3, [Output.focusState (getState a3 wallClock)])
            else (a3, [])

/-- `handlePresenterControl` (§11). -/
def handlePresenterControl (a : FocusAlgorithm) (control : PresenterControl)
    (wallClock : ℤ) : FocusAlgorithm × List Output :=
  let now := control.timestampMs
  match control.action with
  | PresenterControlAction.toggleAutoFocus =>
    let a1 := { a with state := { a.state with autoEnabled := !a.state.autoEnabled } }
    (a1, [Output.focusState (getState a1 wallClock)])
  | PresenterControlAction.toggleFreeze =>
    let a1 := { a with state := { a.state with frozen := !a.state.frozen } }
    let a2 := if a1.state.frozen = false then
        { a1 with state := { a1.state with candidateSinceTs := now } }
      else a1
    (a2, [Output.focusState (getState a2 wallClock)])
  | PresenterControlAction.manualSelect =>
    match control.screenId with
    | some sid =>
      if sid != "" && hasDisplay a.displays sid then
        let a1 := { a with state := { a.state with manualOverride := some sid } }
        let p := setActive a1 sid SignalType.manual 100 now
        (p.1, [Output.focusChange p.2])
      else (a, [])
    | none => (a, [])
  | PresenterControlAction.clearManual =>
    let a1 := { a with state := { a.state with manualOverride := none } }
    (a1, [Output.focusState (getState a1 wallClock)])

/-- One call to either public entry point. -/
inductive Op where
  | signal (s : IntentSignal)
  | control (c : PresenterControl)
deriving DecidableEq

/-- The timestamp carried by an operation. -/
def opTs : Op → ℤ
  | Op.signal s => s.timestampMs
  | Op.control c => c.timestampMs

/-- Dispatch one operation. -/
def step (a : FocusAlgorithm) (op : Op) (wallClock : ℤ) : FocusAlgorithm × List Output :=
  match op with
  | Op.signal s => processSignal a s wallClock
  | Op.control c => handlePresenterControl a c wallClock

/-- Run a sequence of operations, collecting all callback invocations. -/
def run (a : FocusAlgorithm) (ops : List Op) (wallClock : ℤ) :
    FocusAlgorithm × List Output :=
  match ops with
  | [] => (a, [])
  | op :: rest =>
    let p := step a op wallClock
    let q := run p.1 rest wallClock
    (q.1, p.2 ++ q.2)

/-- The FocusChangeEvents among a list of outputs, in emission order. -/
def emittedFocusChanges (outs : List Output) : List FocusChangeEvent :=
  outs.filterMap (fun o =>
    match o with
    | Output.focusChange e => some e
    | Output.focusState _ => none)

/-- The comparator passed to `signals.sort` in `resolveConflict`:
priority difference, then base-confidence difference (reversed), then
timestamp difference (reversed). -/
def signalCmp (a b : IntentSignal) : ℤ :=
  if signalPriority a.type ≠ signalPriority b.type then
    signalPriority a.type - signalPriority b.type
  else if baseConfidence a.type ≠ baseConfidence b.type then
    baseConfidence b.type - baseConfidence a.type
  else
    b.timestampMs - a.timestampMs

/-- Earliest comparator-minimal element of `best :: rest`.  JS
`Array.prototype.sort` is stable (ES2019), so the head of
`signals.sort(cmp)` is exactly the earliest element that no later element
strictly beats; the fold keeps the current best unless a strictly smaller
comparator value appears. -/
def chooseBest (best : IntentSignal) : List IntentSignal → IntentSignal
  | [] => best
  | s :: rest => if signalCmp s best < 0 then chooseBest s rest else chooseBest best rest

/-- `resolveConflict` (§9). -/
def resolveConflict : List IntentSignal → Option IntentSignal
  | [] => none
  | [s] => some s
  | s :: rest => some (chooseBest s rest)

/-- The preference order `resolveConflict` realizes, written out: strictly
higher priority (lower `SIGNAL_PRIORITY` number) wins; on a priority tie the
strictly higher base confidence wins; on a further tie the later (or equal)
`timestampMs` wins. -/
def prefOver (a b : IntentSignal) : Prop :=
  signalPriority a.type < signalPriority b.type ∨
    (signalPriority a.type = signalPriority b.type ∧
      (baseConfidence b.type < baseConfidence a.type ∨
        (baseConfidence a.type = baseConfidence b.type ∧ b.timestampMs ≤ a.timestampMs)))

/-- Display D1 = (0, 0, 1920, 1080) from the end-to-end scenarios. -/
def D1 : DisplayBounds := ⟨"D1", 0, 0, 1920, 1080, 1⟩

/-- Display D2 = (1920, 0, 1920, 1080) from the end-to-end scenarios. -/
def D2 : DisplayBounds := ⟨"D2", 1920, 0, 1920, 1080, 1⟩

/-- Display D3 = (4480, 0, 1920, 1080) from the end-to-end scenarios. -/
def D3 : DisplayBounds := ⟨"D3", 4480, 0, 1920, 1080, 1⟩

/-- Engine over D1, D2, D3 with the default configuration. -/
def engine3 : FocusAlgorithm := mkFocusAlgorithm "session" [D1, D2, D3] {}

/-- Engine constructed with an empty display list. -/
def engineEmpty : FocusAlgorithm := mkFocusAlgorithm "session" [] {}

/-- A click pre-attributed to screen `sid` at time `t` (as the unit tests
build them: cursor at (960, 540)). -/
def clickAt (sid : String) (t : ℤ) : IntentSignal :=
  { type := SignalType.click, screenId := sid, x := 960, y := 540, timestampMs := t }

/-- The two-click scenario of C1: `Click@D2,t=1000`, `Click@D2,t=1400`. -/
def c1ops : List Op := [Op.signal (clickAt "D2" 1000), Op.signal (clickAt "D2" 1400)]

/-- The cooldown scenario of C8: clicks on D2 at 1000 and 1400, then on D1
at 1500 and 1900. -/
def c8ops : List Op :=
  [Op.signal (clickAt "D2" 1000), Op.signal (clickAt "D2" 1400),
   Op.signal (clickAt "D1" 1500), Op.signal (clickAt "D1" 1900)]

/-- An invalid configuration: `switchThreshold` (0.30) below `stayThreshold`
(0.50) and a negative `cooldownMs`. -/
def badPatch : FocusConfigPatch :=
  { switchThreshold := some 30, stayThreshold := some 50, cooldownMs := some (-100) }

/-- Engine constructed from the invalid configuration — the constructor
accepts it. -/
def badEngine : FocusAlgorithm := mkFocusAlgorithm "session" [D1, D2, D3] badPatch

/-- A click on (960, 540) with no pre-attributed screen, type Click. -/
def bareClick (t : ℤ) : IntentSignal :=
  { type := SignalType.click, screenId := "", x := 960, y := 540, timestampMs := t }

/-- A point exactly on D1's right boundary: x = D1.x + D1.width = 1920. -/
def edgeSignal : IntentSignal :=
  { type := SignalType.click, screenId := "", x := 1920, y := 540, timestampMs := 1000 }

/-- Click with timestamp 100 (for the conflict-resolution instance). -/
def clickSig : IntentSignal :=
  { type := SignalType.click, screenId := "D1", x := 100, y := 100, timestampMs := 100 }

/-- DoubleClick with the later timestamp 200 (same priority and base
confidence as Click in the source tables). -/
def doubleClickSig : IntentSignal :=
  { type := SignalType.doubleClick, screenId := "D2", x := 200, y := 100, timestampMs := 200 }

/-- Engine over the single display D1. -/
def engine1 : FocusAlgorithm := mkFocusAlgorithm "session" [D1] {}

/-- ManualSelect of D1 at t = 1000. -/
def selectD1 : PresenterControl :=
  { action := PresenterControlAction.manualSelect, screenId := some "D1", timestampMs := 1000 }

/-- The engine state after the first click of the C1 scenario. -/
def c2wEngine : FocusAlgorithm := (run engine3 [Op.signal (clickAt "D2" 1000)] 0).1

/-- The event the second click of the C1 scenario emits. -/
def c2wEvent : FocusChangeEvent :=
  { sessionId := "session", screenId := "D2", reason := SignalType.click,
    confidence := 100, dwellMs := 400, sequence := 1, timestampMs := 1400 }

/-- Two clicks on the already-active screen D1 (produces a stay-refresh). -/
def c5ops : List Op := [Op.signal (clickAt "D1" 1000), Op.signal (clickAt "D1" 1400)]

/-- The engine state after the first two operations of the C8 scenario. -/
def c8mid : FocusAlgorithm :=
  (run engine3 [Op.signal (clickAt "D2" 1000), Op.signal (clickAt "D2" 1400)] 0).1

end Focus

-- ─────────────────────────────────────────────
-- Theorems
-- ─────────────────────────────────────────────

namespace Focus


/-- `trackSignal` does not touch the sequence counter. -/
theorem trackSignal_seq (a : FocusAlgorithm) (s : IntentSignal) :
    (trackSignal a s).state.sequence = a.state.sequence := by
  unfold trackSignal
  split <;> rfl

/-- `trackSignal` does not touch the active screen. -/
theorem trackSignal_active (a : FocusAlgorithm) (s : IntentSignal) :
    (trackSignal a s).state.activeScreenId = a.state.activeScreenId := by
  unfold trackSignal
  split <;> rfl

theorem coolIte_seq (c : Prop) [Decidable c] (u : FocusAlgorithm) :
    (if c then bumpCooldown u else u).state.sequence = u.state.sequence := by
  split <;> rfl

theorem coolIte_active (c : Prop) [Decidable c] (u : FocusAlgorithm) :
    (if c then bumpCooldown u else u).state.activeScreenId = u.state.activeScreenId := by
  split <;> rfl

theorem resetIte_seq (c : Prop) [Decidable c] (u : FocusAlgorithm) (cand : String) (now : ℤ) :
    (if c then resetCandidate u cand now else u).state.sequence = u.state.sequence := by
  split <;> rfl

theorem resetIte_active (c : Prop) [Decidable c] (u : FocusAlgorithm) (cand : String) (now : ℤ) :
    (if c then resetCandidate u cand now else u).state.activeScreenId = u.state.activeScreenId := by
  split <;> rfl

/-- Exhaustive characterization of one `processSignal` call: either exactly
one FocusChangeEvent is emitted — then its sequence is the incremented
counter, its timestamp is the signal timestamp, and its screen differs from
the previously active screen, which it becomes — or no FocusChangeEvent is
emitted and the sequence counter is unchanged. -/
theorem processSignal_split (a : FocusAlgorithm) (s : IntentSignal) (wc : ℤ) :
    ∀ a' outs, processSignal a s wc = (a', outs) →
    (∃ e, outs = [Output.focusChange e] ∧
        e.sequence = a.state.sequence + 1 ∧
        a'.state.sequence = a.state.sequence + 1 ∧
        e.timestampMs = s.timestampMs ∧
        some e.screenId ≠ a.state.activeScreenId ∧
        a'.state.activeScreenId = some e.screenId) ∨
      (a'.state.sequence = a.state.sequence ∧
        emittedFocusChanges outs = []) := by
  intro a' outs h
  unfold processSignal at h
  lift_lets at h
  extract_lets now a1 inCooldown a2 at h
  have ha1seq : a1.state.sequence = a.state.sequence := trackSignal_seq a s
  have ha1act : a1.state.activeScreenId = a.state.activeScreenId := trackSignal_active a s
  have ha2seq : a2.state.sequence = a.state.sequence :=
    (coolIte_seq _ a1).trans ha1seq
  have ha2act : a2.state.activeScreenId = a.state.activeScreenId :=
    (coolIte_active _ a1).trans ha1act
  split at h
  · injection h with h1 h2
    subst h1
    subst h2
    right
    exact ⟨ha1seq, rfl⟩
  split at h
  · injection h with h1 h2
    subst h1
    subst h2
    right
    exact ⟨ha1seq, rfl⟩
  split at h
  case _ ov hov =>
    split at h
    case isTrue hc =>
      injection h with h1 h2
      subst h1
      subst h2
      left
      refine ⟨_, rfl, ?_, ?_, rfl, ?_, rfl⟩
      · exact congrArg (· + 1) ha1seq
      · exact congrArg (· + 1) ha1seq
      · rw [ha1act] at hc
        exact fun hh => hc hh.symm
    case isFalse hc =>
      injection h with h1 h2
      subst h1
      subst h2
      right
      exact ⟨ha1seq, rfl⟩
  case _ hov =>
    split at h
    · injection h with h1 h2
      subst h1
      subst h2
      right
      exact ⟨ha1seq, rfl⟩
    case _ cand hcand =>
      lift_lets at h
      extract_lets conf0 conf1 a3 dwellNeeded dwellElapsed p at h
      have ha3seq : a3.state.sequence = a.state.sequence :=
        (resetIte_seq _ a2 cand now).trans ha2seq
      have ha3act : a3.state.activeScreenId = a.state.activeScreenId :=
        (resetIte_active _ a2 cand now).trans ha2act
      split at h
      · injection h with h1 h2
        subst h1
        subst h2
        right
        exact ⟨ha1seq, rfl⟩
      split at h
      · injection h with h1 h2
        subst h1
        subst h2
        right
        exact ⟨ha3seq, rfl⟩
      split at h
      case isTrue hc =>
        split at h
        · injection h with h1 h2
          subst h1
          subst h2
          left
          refine ⟨_, rfl, ?_, ?_, rfl, ?_, rfl⟩
          · exact congrArg (· + 1) ha3seq
          · exact congrArg (· + 1) ha3seq
          · rw [ha3act] at hc
            exact hc
        · injection h with h1 h2
          subst h1
          subst h2
          right
          exact ⟨ha3seq, rfl⟩
      case isFalse hc =>
        split at h <;>
          (injection h with h1 h2
           subst h1
           subst h2
           right
           exact ⟨ha3seq, rfl⟩)

/-- Exhaustive characterization of one `handlePresenterControl` call:
either the action is ManualSelect and exactly one FocusChangeEvent is
emitted — with incremented sequence, the control timestamp, and the
selected screen becoming active — or no FocusChangeEvent is emitted and
the sequence counter is unchanged. -/
theorem handlePresenterControl_split (a : FocusAlgorithm) (c : PresenterControl) (wc : ℤ) :
    ∀ a' outs, handlePresenterControl a c wc = (a', outs) →
    (∃ e, c.action = PresenterControlAction.manualSelect ∧
        outs = [Output.focusChange e] ∧
        e.sequence = a.state.sequence + 1 ∧
        a'.state.sequence = a.state.sequence + 1 ∧
        e.timestampMs = c.timestampMs ∧
        c.screenId = some e.screenId ∧
        a'.state.activeScreenId = some e.screenId) ∨
      (a'.state.sequence = a.state.sequence ∧ emittedFocusChanges outs = []) := by
  intro a' outs h
  unfold handlePresenterControl at h
  lift_lets at h
  extract_lets now at h
  split at h
  case _ hact =>
    lift_lets at h
    extract_lets s1 a1 at h
    injection h with h1 h2
    subst h1
    subst h2
    right
    exact ⟨rfl, rfl⟩
  case _ hact =>
    lift_lets at h
    extract_lets s1 a1 s2 a2 at h
    injection h with h1 h2
    subst h1
    subst h2
    right
    refine ⟨?_, rfl⟩
    unfold a2
    split <;> rfl
  case _ hact =>
    split at h
    case _ sid hsid =>
      split at h
      case isTrue hok =>
        lift_lets at h
        extract_lets s1 a1 p at h
        injection h with h1 h2
        subst h1
        subst h2
        left
        exact ⟨_, hact, rfl, rfl, rfl, rfl, hsid, rfl⟩
      case isFalse hok =>
        injection h with h1 h2
        subst h1
        subst h2
        right
        exact ⟨rfl, rfl⟩
    case _ hsid =>
      injection h with h1 h2
      subst h1
      subst h2
      right
      exact ⟨rfl, rfl⟩
  case _ hact =>
    lift_lets at h
    extract_lets s1 a1 at h
    injection h with h1 h2
    subst h1
    subst h2
    right
    exact ⟨rfl, rfl⟩

/-- Exhaustive characterization of one operation (either entry point). -/
theorem step_split (a : FocusAlgorithm) (op : Op) (wc : ℤ) :
    ∀ a' outs, step a op wc = (a', outs) →
    (∃ e, outs = [Output.focusChange e] ∧
        e.sequence = a.state.sequence + 1 ∧
        a'.state.sequence = a.state.sequence + 1 ∧
        e.timestampMs = opTs op) ∨
      (a'.state.sequence = a.state.sequence ∧ emittedFocusChanges outs = []) := by
  intro a' outs h
  cases op with
  | signal s =>
    rcases processSignal_split a s wc a' outs h with ⟨e, he⟩ | hq
    · exact Or.inl ⟨e, he.1, he.2.1, he.2.2.1, he.2.2.2.1⟩
    · exact Or.inr hq
  | control c =>
    rcases handlePresenterControl_split a c wc a' outs h with ⟨e, he⟩ | hq
    · exact Or.inl ⟨e, he.2.1, he.2.2.1, he.2.2.2.1, he.2.2.2.2.1⟩
    · exact Or.inr hq

/-- `emittedFocusChanges` distributes over concatenation. -/
theorem emittedFocusChanges_append (l1 l2 : List Output) :
    emittedFocusChanges (l1 ++ l2) = emittedFocusChanges l1 ++ emittedFocusChanges l2 :=
  List.filterMap_append l1 l2 _

/-- A focus-change output contributes its event to `emittedFocusChanges`. -/
theorem mem_emittedFocusChanges {e : FocusChangeEvent} {outs : List Output}
    (h : Output.focusChange e ∈ outs) : e ∈ emittedFocusChanges outs :=
  List.mem_filterMap.mpr ⟨Output.focusChange e, h, rfl⟩

/-- Unfolding equation for `run` on a non-empty operation list. -/
theorem run_cons (a : FocusAlgorithm) (op : Op) (rest : List Op) (wc : ℤ) :
    run a (op :: rest) wc =
      ((run (step a op wc).1 rest wc).1,
        (step a op wc).2 ++ (run (step a op wc).1 rest wc).2) := rfl

/-- Sequence bookkeeping over a whole run: the emitted events carry the
consecutive sequence numbers starting right after the initial counter, and
the final counter is the initial one plus the number of emitted events. -/
theorem run_seq (ops : List Op) : ∀ (a : FocusAlgorithm) (wc : ℤ),
    (emittedFocusChanges (run a ops wc).2).map FocusChangeEvent.sequence =
      List.range' (a.state.sequence + 1) (emittedFocusChanges (run a ops wc).2).length ∧
    (run a ops wc).1.state.sequence =
      a.state.sequence + (emittedFocusChanges (run a ops wc).2).length := by
  induction ops with
  | nil =>
    intro a wc
    exact ⟨rfl, rfl⟩
  | cons op rest ih =>
    intro a wc
    rcases hstep : step a op wc with ⟨a1, outs1⟩
    have hrun : run a (op :: rest) wc =
        ((run a1 rest wc).1, outs1 ++ (run a1 rest wc).2) := by
      rw [run_cons, hstep]
    rw [hrun]
    rcases ih a1 wc with ⟨ih1, ih2⟩
    rcases step_split a op wc a1 outs1 hstep with ⟨e, hout, heseq, haseq, _⟩ | ⟨hseq, hemp⟩
    · subst hout
      simp only [emittedFocusChanges_append]
      have hone : emittedFocusChanges [Output.focusChange e] = [e] := rfl
      rw [hone]
      constructor
      · simp only [List.map_append, List.length_append, List.map_cons, List.map_nil,
          List.length_cons, List.length_nil]
        rw [ih1, haseq, heseq]
        have hn : 0 + 1 + (emittedFocusChanges (run a1 rest wc).2).length =
            (emittedFocusChanges (run a1 rest wc).2).length + 1 := by omega
        rw [hn, List.range'_succ]
        rfl
      · simp only [List.length_append, List.length_cons, List.length_nil]
        rw [ih2, haseq]
        omega
    · simp only [emittedFocusChanges_append, hemp, List.nil_append]
      rw [ih1, ih2, hseq]
      exact ⟨rfl, rfl⟩

/-- The emitted timestamps form a sublist of the input timestamps (each
event inherits the timestamp of the operation that produced it). -/
theorem run_ts_sublist (ops : List Op) : ∀ (a : FocusAlgorithm) (wc : ℤ),
    ((emittedFocusChanges (run a ops wc).2).map FocusChangeEvent.timestampMs).Sublist
      (ops.map opTs) := by
  induction ops with
  | nil =>
    intro a wc
    exact List.Sublist.refl _
  | cons op rest ih =>
    intro a wc
    rcases hstep : step a op wc with ⟨a1, outs1⟩
    have hrun : run a (op :: rest) wc =
        ((run a1 rest wc).1, outs1 ++ (run a1 rest wc).2) := by
      rw [run_cons, hstep]
    rw [hrun]
    simp only [emittedFocusChanges_append, List.map_append, List.map_cons]
    rcases step_split a op wc a1 outs1 hstep with ⟨e, hout, _, _, hts⟩ | ⟨_, hemp⟩
    · subst hout
      have hone : emittedFocusChanges [Output.focusChange e] = [e] := rfl
      rw [hone]
      simp only [List.map_cons, List.map_nil, List.singleton_append]
      rw [hts]
      exact List.Sublist.cons₂ _ (ih a1 wc)
    · rw [hemp]
      simp only [List.map_nil, List.nil_append]
      exact List.Sublist.cons _ (ih a1 wc)

/-- `List.range'` with step 1 is strictly increasing. -/
theorem chain'_lt_range' (n : ℕ) : ∀ s : ℕ, List.Chain' (· < ·) (List.range' s n) := by
  induction n with
  | zero =>
    intro s
    exact List.chain'_nil
  | succ m ih =>
    intro s
    rw [List.range'_succ]
    cases m with
    | zero => exact List.chain'_singleton s
    | succ k =>
      rw [List.range'_succ]
      exact List.Chain'.cons (Nat.lt_succ_self s) (List.range'_succ (s + 1) k 1 ▸ ih (s + 1))

/-- `trackSignal` does not touch the manual override. -/
theorem trackSignal_override (a : FocusAlgorithm) (s : IntentSignal) :
    (trackSignal a s).state.manualOverride = a.state.manualOverride := by
  unfold trackSignal
  split <;> rfl

/-- `prefOver` is reflexive. -/
theorem prefOver_refl (a : IntentSignal) : prefOver a a := by
  unfold prefOver
  omega

/-- `prefOver` is transitive (lexicographic order on priority, reversed
base confidence, reversed timestamp). -/
theorem prefOver_trans (a b c : IntentSignal) (h1 : prefOver a b) (h2 : prefOver b c) :
    prefOver a c := by
  unfold prefOver at h1 h2 ⊢
  omega

/-- A strictly negative comparator value means the first signal is
preferred. -/
theorem signalCmp_neg {s b : IntentSignal} (h : signalCmp s b < 0) : prefOver s b := by
  unfold signalCmp at h
  unfold prefOver
  split at h
  · omega
  · split at h <;> omega

/-- A non-negative comparator value means the second signal is preferred. -/
theorem signalCmp_nonneg {s b : IntentSignal} (h : ¬signalCmp s b < 0) : prefOver b s := by
  unfold signalCmp at h
  unfold prefOver
  split at h
  · omega
  · split at h <;> omega

/-- The fold in `resolveConflict` returns an element of the candidates that
is preferred over the seed and over every listed signal. -/
theorem chooseBest_spec (l : List IntentSignal) : ∀ best,
    (chooseBest best l = best ∨ chooseBest best l ∈ l) ∧
    prefOver (chooseBest best l) best ∧ ∀ s ∈ l, prefOver (chooseBest best l) s := by
  induction l with
  | nil =>
    intro best
    refine ⟨Or.inl rfl, prefOver_refl best, ?_⟩
    intro s hs
    cases hs
  | cons s rest ih =>
    intro best
    unfold chooseBest
    split
    case isTrue hlt =>
      rcases ih s with ⟨hm, hpb, hall⟩
      refine ⟨?_, ?_, ?_⟩
      · rcases hm with h | h
        · refine Or.inr ?_
          rw [h]
          exact List.mem_cons_self s rest
        · exact Or.inr (List.mem_cons_of_mem s h)
      · exact prefOver_trans _ _ _ hpb (signalCmp_neg hlt)
      · intro t ht
        rcases List.mem_cons.mp ht with rfl | ht'
        · exact hpb
        · exact hall t ht'
    case isFalse hge =>
      rcases ih best with ⟨hm, hpb, hall⟩
      refine ⟨?_, hpb, ?_⟩
      · rcases hm with h | h
        · exact Or.inl h
        · exact Or.inr (List.mem_cons_of_mem s h)
      · intro t ht
        rcases List.mem_cons.mp ht with rfl | ht'
        · exact prefOver_trans _ _ _ hpb (signalCmp_nonneg hge)
        · exact hall t ht'

/-- The rounding formula of the source, evaluated on the value a
hundredths integer stands for, returns exactly that value back. -/
theorem round100_exact (c : ℤ) :
    confValue (round100 c) = (⌊confValue c * 100 + 1/2⌋ : ℚ) / 100 := by
  have h : confValue c * 100 = (c : ℚ) := by
    unfold confValue
    field_simp
  rw [h]
  have h2 : ⌊(c : ℚ) + 1/2⌋ = c := by
    rw [Int.floor_eq_iff]
    constructor
    · linarith
    · linarith
  rw [h2]
  rfl


/-- The attribution loop on a containing display returns it immediately. -/
theorem pointerLoop_cons_hit (x y : ℤ) (b : DisplayBounds) (rest : List DisplayBounds)
    (acc : Option (String × ℤ)) (hb : containsPoint b x y = true) :
    pointerLoop x y (b :: rest) acc = some b.screenId := by
  unfold pointerLoop
  rw [hb]
  rfl

/-- First iteration with the `-1` sentinel: any proximity beats it. -/
theorem pointerLoop_cons_none (x y : ℤ) (b : DisplayBounds) (rest : List DisplayBounds)
    (hb : containsPoint b x y = false) :
    pointerLoop x y (b :: rest) none =
      pointerLoop x y rest (some (b.screenId, rectDistSq b x y)) := by
  conv_lhs => unfold pointerLoop
  rw [hb]
  simp

/-- Later iterations: the strict proximity comparison on squared distances. -/
theorem pointerLoop_cons_acc (x y : ℤ) (b : DisplayBounds) (rest : List DisplayBounds)
    (bid : String) (bd : ℤ) (hb : containsPoint b x y = false) :
    pointerLoop x y (b :: rest) (some (bid, bd)) =
      if rectDistSq b x y < bd then pointerLoop x y rest (some (b.screenId, rectDistSq b x y))
      else pointerLoop x y rest (some (bid, bd)) := by
  conv_lhs => unfold pointerLoop
  rw [hb]
  simp

/-- Squared rectangle distances are non-negative. -/
theorem rectDistSq_nonneg (b : DisplayBounds) (x y : ℤ) : 0 ≤ rectDistSq b x y := by
  unfold rectDistSq
  exact add_nonneg (mul_self_nonneg _) (mul_self_nonneg _)

/-- `t ↦ 1 / (1 + √t)` is strictly antitone on the non-negatives: a strictly
smaller squared distance means a strictly larger proximity. -/
theorem proxLt {d e : ℤ} (hd : 0 ≤ d) (h : d < e) :
    (1 : ℝ) / (1 + Real.sqrt (e : ℝ)) < 1 / (1 + Real.sqrt (d : ℝ)) := by
  have hd' : (0 : ℝ) ≤ (d : ℝ) := by exact_mod_cast hd
  have h' : (d : ℝ) < (e : ℝ) := by exact_mod_cast h
  have hs : Real.sqrt (d : ℝ) < Real.sqrt (e : ℝ) := Real.sqrt_lt_sqrt hd' h'
  have hpos : (0 : ℝ) < 1 + Real.sqrt (d : ℝ) := by positivity
  exact one_div_lt_one_div_of_lt hpos (by linarith)

/-- Weak version of `proxLt`. -/
theorem proxLe {d e : ℤ} (_hd : 0 ≤ d) (h : d ≤ e) :
    (1 : ℝ) / (1 + Real.sqrt (e : ℝ)) ≤ 1 / (1 + Real.sqrt (d : ℝ)) := by
  have h' : (d : ℝ) ≤ (e : ℝ) := by exact_mod_cast h
  have hs : Real.sqrt (d : ℝ) ≤ Real.sqrt (e : ℝ) := Real.sqrt_le_sqrt h'
  have hpos : (0 : ℝ) < 1 + Real.sqrt (d : ℝ) := by positivity
  exact one_div_le_one_div_of_le hpos (by linarith)

/-- Once a best candidate exists, the loop always returns a display. -/
theorem pointerLoop_isSome (x y : ℤ) :
    ∀ (l : List DisplayBounds) (p : String × ℤ),
    (pointerLoop x y l (some p)).isSome = true := by
  intro l
  induction l with
  | nil =>
    intro p
    rfl
  | cons b rest ih =>
    intro p
    rcases hb : containsPoint b x y with _ | _
    · rcases p with ⟨bid, bd⟩
      rw [pointerLoop_cons_acc x y b rest bid bd hb]
      split
      · exact ih _
      · exact ih _
    · rw [pointerLoop_cons_hit x y b rest _ hb]
      rfl

/-- If a display contains the point and all containing displays share its
screen id, the loop returns that id regardless of the accumulator. -/
theorem pointerLoop_contains (x y : ℤ) :
    ∀ (l : List DisplayBounds) (acc : Option (String × ℤ)) (d : DisplayBounds),
    d ∈ l → containsPoint d x y = true →
    (∀ e ∈ l, containsPoint e x y = true → e.screenId = d.screenId) →
    pointerLoop x y l acc = some d.screenId := by
  intro l
  induction l with
  | nil =>
    intro acc d hd _ _
    cases hd
  | cons b rest ih =>
    intro acc d hd hcont huniq
    rcases hb : containsPoint b x y with _ | _
    · have hd' : d ∈ rest := by
        rcases List.mem_cons.mp hd with rfl | h'
        · rw [hcont] at hb
          cases hb
        · exact h'
      have huniq' : ∀ e ∈ rest, containsPoint e x y = true → e.screenId = d.screenId :=
        fun e he => huniq e (List.mem_cons_of_mem b he)
      cases acc with
      | none =>
        rw [pointerLoop_cons_none x y b rest hb]
        exact ih _ d hd' hcont huniq'
      | some p =>
        rcases p with ⟨bid, bd⟩
        rw [pointerLoop_cons_acc x y b rest bid bd hb]
        split
        · exact ih _ d hd' hcont huniq'
        · exact ih _ d hd' hcont huniq'
    · rw [pointerLoop_cons_hit x y b rest acc hb]
      exact congrArg some (huniq b (List.mem_cons_self b rest) hb)

/-- No display contains the point: the loop either keeps the accumulated
best (everything is at least as far) or returns the first display that is
strictly closer than the accumulator and than everything before it, and at
least as close as everything after it. -/
theorem pointerLoop_min (x y : ℤ) :
    ∀ (l : List DisplayBounds) (bid : String) (bd : ℤ),
    (∀ e ∈ l, containsPoint e x y = false) →
    (pointerLoop x y l (some (bid, bd)) = some bid ∧ ∀ e ∈ l, bd ≤ rectDistSq e x y) ∨
    (∃ l1 w l2, l = l1 ++ w :: l2 ∧
      pointerLoop x y l (some (bid, bd)) = some w.screenId ∧
      rectDistSq w x y < bd ∧
      (∀ e ∈ l1, rectDistSq w x y < rectDistSq e x y) ∧
      (∀ e ∈ l2, rectDistSq w x y ≤ rectDistSq e x y)) := by
  intro l
  induction l with
  | nil =>
    intro bid bd _
    left
    refine ⟨rfl, ?_⟩
    intro e he
    cases he
  | cons b rest ih =>
    intro bid bd hnc
    have hb : containsPoint b x y = false := hnc b (List.mem_cons_self b rest)
    have hrest : ∀ e ∈ rest, containsPoint e x y = false :=
      fun e he => hnc e (List.mem_cons_of_mem b he)
    rw [pointerLoop_cons_acc x y b rest bid bd hb]
    split
    case isTrue hlt =>
      rcases ih b.screenId (rectDistSq b x y) hrest with
        ⟨heq, hall⟩ | ⟨l1, w, l2, hsp, heq, hwb, hl1, hl2⟩
      · right
        exact ⟨[], b, rest, rfl, heq, hlt, fun e he => absurd he (List.not_mem_nil e), hall⟩
      · right
        refine ⟨b :: l1, w, l2, by rw [hsp]; rfl, heq, lt_trans hwb hlt, ?_, hl2⟩
        intro e he
        rcases List.mem_cons.mp he with rfl | he'
        · exact hwb
        · exact hl1 e he'
    case isFalse hge =>
      rcases ih bid bd hrest with
        ⟨heq, hall⟩ | ⟨l1, w, l2, hsp, heq, hwb, hl1, hl2⟩
      · left
        refine ⟨heq, ?_⟩
        intro e he
        rcases List.mem_cons.mp he with rfl | he'
        · omega
        · exact hall e he'
      · right
        refine ⟨b :: l1, w, l2, by rw [hsp]; rfl, heq, hwb, ?_, hl2⟩
        intro e he
        rcases List.mem_cons.mp he with rfl | he'
        · omega
        · exact hl1 e he'

/-- On a non-empty map with no containing display, the loop returns the
first display of minimal rectangle distance (strictly closer than all
earlier displays, at least as close as all later ones). -/
theorem pointerLoop_first_min (x y : ℤ) (l : List DisplayBounds)
    (hnc : ∀ e ∈ l, containsPoint e x y = false) (hne : l ≠ []) :
    ∃ l1 w l2, l = l1 ++ w :: l2 ∧ pointerLoop x y l none = some w.screenId ∧
      (∀ e ∈ l1, rectDistSq w x y < rectDistSq e x y) ∧
      (∀ e ∈ l2, rectDistSq w x y ≤ rectDistSq e x y) := by
  cases l with
  | nil => exact absurd rfl hne
  | cons b rest =>
    have hb : containsPoint b x y = false := hnc b (List.mem_cons_self b rest)
    have hrest : ∀ e ∈ rest, containsPoint e x y = false :=
      fun e he => hnc e (List.mem_cons_of_mem b he)
    rw [pointerLoop_cons_none x y b rest hb]
    rcases pointerLoop_min x y rest b.screenId (rectDistSq b x y) hrest with
      ⟨heq, hall⟩ | ⟨l1, w, l2, hsp, heq, hwb, hl1, hl2⟩
    · exact ⟨[], b, rest, rfl, heq, fun e he => absurd he (List.not_mem_nil e), hall⟩
    · refine ⟨b :: l1, w, l2, by rw [hsp]; rfl, heq, ?_, hl2⟩
      intro e he
      rcases List.mem_cons.mp he with rfl | he'
      · exact hwb
      · exact hl1 e he'

-- ─────────────────────────────────────────────
-- Claim theorems
-- ─────────────────────────────────────────────

/-- C1 counterexample: on displays D1, D2, D3 with default configuration,
the two signals Click@D2,t=1000 and Click@D2,t=1400 emit exactly one
FocusChangeEvent, but its confidence is 1.00 (100 hundredths) — the claimed
value 0.95 (95 hundredths) is wrong, because the +0.05 sustained-candidate
reinforcement applies at t=1400 (candidate D2 since t=1000, 400 ms < 1000 ms). -/
theorem c1_counterexample :
    (run engine3 c1ops 0).2 =
      [Output.focusChange
        { sessionId := "session", screenId := "D2", reason := SignalType.click,
          confidence := 100, dwellMs := 400, sequence := 1, timestampMs := 1400 }] ∧
    ¬(emittedFocusChanges (run engine3 c1ops 0).2).map FocusChangeEvent.confidence = [95] := by
  decide

/-- Claim C1 (amended): processing Click@D2,t=1000 and Click@D2,t=1400 on
displays D1, D2, D3 with default configuration emits exactly one
FocusChangeEvent, with screenId = D2, reason = Click, dwellMs = 400,
sequence = 1, and confidence = 1.00 (the 0.95 click base plus the 0.05
sustained-candidate reinforcement; 100 in hundredths, i.e. the JS value 1). -/
theorem c1_click_dwell_scenario :
    (run engine3 c1ops 0).2 =
      [Output.focusChange
        { sessionId := "session", screenId := "D2", reason := SignalType.click,
          confidence := 100, dwellMs := 400, sequence := 1, timestampMs := 1400 }] ∧
    confValue 100 = 1 := by
  constructor
  · decide
  · norm_num [confValue]

/-- C2 counterexample: on an engine whose active screen is already D1
(initialized from the display list), ManualSelect(D1) emits a
FocusChangeEvent even though `activeScreenId` keeps its previous non-null
value D1 — contradicting the claim that an event is emitted only when the
active screen actually changes or is first set by a manual command. -/
theorem c2_counterexample :
    engine1.state.activeScreenId = some "D1" ∧
    (handlePresenterControl engine1 selectD1 0).2 =
      [Output.focusChange
        { sessionId := "session", screenId := "D1", reason := SignalType.manual,
          confidence := 100, dwellMs := 1000, sequence := 1, timestampMs := 1000 }] ∧
    (handlePresenterControl engine1 selectD1 0).1.state.activeScreenId = some "D1" := by
  decide

/-- Claim C2 (amended): a FocusChangeEvent from `processSignal` is emitted
only when `activeScreenId` actually changes (the event's screen differs
from the previous active screen, and becomes the new active screen); a
FocusChangeEvent from `handlePresenterControl` arises only from a
ManualSelect action (which also emits when the selected screen is already
the active one). -/
theorem c2_change_only_emission :
    (∀ (a : FocusAlgorithm) (s : IntentSignal) (wc : ℤ) (e : FocusChangeEvent),
        Output.focusChange e ∈ (processSignal a s wc).2 →
        some e.screenId ≠ a.state.activeScreenId ∧
        (processSignal a s wc).1.state.activeScreenId = some e.screenId) ∧
    (∀ (a : FocusAlgorithm) (c : PresenterControl) (wc : ℤ) (e : FocusChangeEvent),
        Output.focusChange e ∈ (handlePresenterControl a c wc).2 →
        c.action = PresenterControlAction.manualSelect ∧
        (handlePresenterControl a c wc).1.state.activeScreenId = some e.screenId) := by
  constructor
  · intro a s wc e he
    rcases processSignal_split a s wc (processSignal a s wc).1 (processSignal a s wc).2 rfl with
      ⟨e', hout, _, _, _, hne, hact⟩ | ⟨_, hemp⟩
    · rw [hout] at he
      rcases List.mem_singleton.mp he with he'
      cases he'
      exact ⟨hne, hact⟩
    · exact absurd (hemp ▸ mem_emittedFocusChanges he) (List.not_mem_nil e)
  · intro a c wc e he
    rcases handlePresenterControl_split a c wc (handlePresenterControl a c wc).1
        (handlePresenterControl a c wc).2 rfl with
      ⟨e', hsel, hout, _, _, _, _, hact⟩ | ⟨_, hemp⟩
    · rw [hout] at he
      rcases List.mem_singleton.mp he with he'
      cases he'
      exact ⟨hsel, hact⟩
    · exact absurd (hemp ▸ mem_emittedFocusChanges he) (List.not_mem_nil e)

/-- Witness for C2: the switch to D2 at t=1400 is an emitted event whose
screen differs from the previously active D1 and becomes active. -/
theorem c2_change_only_emission_witness :
    Output.focusChange c2wEvent ∈ (processSignal c2wEngine (clickAt "D2" 1400) 0).2 ∧
    (some c2wEvent.screenId ≠ c2wEngine.state.activeScreenId ∧
      (processSignal c2wEngine (clickAt "D2" 1400) 0).1.state.activeScreenId =
        some c2wEvent.screenId) :=
  ⟨by decide, c2_change_only_emission.1 c2wEngine (clickAt "D2" 1400) 0 c2wEvent (by decide)⟩

/-- Claim C3 (code bug): the constructor performs no configuration
validation.  An engine built with switchThreshold = 0.30 below
stayThreshold = 0.50 and a negative cooldownMs = −100 is accepted — the
invalid values are stored verbatim — and the engine is fully usable: it
processes the two-click scenario and emits a focus change. -/
theorem c3_config_not_validated :
    badEngine.config.switchThreshold = 30 ∧
    badEngine.config.stayThreshold = 50 ∧
    badEngine.config.switchThreshold < badEngine.config.stayThreshold ∧
    badEngine.config.cooldownMs = -100 ∧
    badEngine.config.cooldownMs < 0 ∧
    (emittedFocusChanges (run badEngine c1ops 0).2).length = 1 := by
  decide

/-- C4 counterexample: `resolveConflict` on a Click (t=100) and a later
DoubleClick (t=200) returns the DoubleClick, not the Click: both have
priority 1 and base confidence 0.95 in the source tables, so the later
timestamp wins — contradicting the claimed strict priority order
Click > DragStart > DoubleClick. -/
theorem c4_counterexample :
    resolveConflict [clickSig, doubleClickSig] = some doubleClickSig ∧
    doubleClickSig.type = SignalType.doubleClick ∧
    clickSig.type = SignalType.click ∧
    signalPriority SignalType.click = signalPriority SignalType.doubleClick ∧
    baseConfidence SignalType.click = baseConfidence SignalType.doubleClick ∧
    clickSig.timestampMs < doubleClickSig.timestampMs := by
  decide

/-- Claim C4 (amended): for every non-empty signal list, `resolveConflict`
returns a member that is maximal under the order realized by
`SIGNAL_PRIORITY` — where Click, DragStart and DoubleClick share priority
1 and DragEnd has priority 2 — with ties broken by higher base confidence,
then by later timestampMs (`prefOver`); in particular a Click and a later
DoubleClick tie on priority and base confidence, so the later DoubleClick
is returned. -/
theorem c4_resolve_conflict_order (sigs : List IntentSignal) (h : sigs ≠ []) :
    ∃ r, resolveConflict sigs = some r ∧ r ∈ sigs ∧ ∀ s ∈ sigs, prefOver r s := by
  cases sigs with
  | nil => exact absurd rfl h
  | cons s rest =>
    cases rest with
    | nil =>
      refine ⟨s, rfl, List.mem_cons_self s [], ?_⟩
      intro t ht
      rcases List.mem_cons.mp ht with rfl | ht'
      · exact prefOver_refl _
      · cases ht'
    | cons s2 r2 =>
      rcases chooseBest_spec (s2 :: r2) s with ⟨hm, hpb, hall⟩
      refine ⟨chooseBest s (s2 :: r2), rfl, ?_, ?_⟩
      · rcases hm with h' | h'
        · rw [h']
          exact List.mem_cons_self s (s2 :: r2)
        · exact List.mem_cons_of_mem s h'
      · intro t ht
        rcases List.mem_cons.mp ht with rfl | ht'
        · exact hpb
        · exact hall t ht'

/-- Witness for C4: applied to the concrete Click/DoubleClick pair. -/
theorem c4_resolve_conflict_order_witness :
    ([clickSig, doubleClickSig] ≠ ([] : List IntentSignal)) ∧
    (∃ r, resolveConflict [clickSig, doubleClickSig] = some r ∧
      r ∈ [clickSig, doubleClickSig] ∧ ∀ s ∈ [clickSig, doubleClickSig], prefOver r s) :=
  ⟨by decide, c4_resolve_conflict_order [clickSig, doubleClickSig] (by decide)⟩

/-- Claim C5 (code bug): `processSignal` does read a clock through
`getState`.  Running the same two clicks on D1 (a stay-refresh) under two
different wall-clock values leaves the engine states identical, but the
emitted FocusStateSnapshot carries the wall clock as its timestampMs —
5000 in one run, 6000 in the other — so the outputs differ even though all
inputs and their timestamps are equal. -/
theorem c5_snapshot_reads_wall_clock :
    (run engine3 c5ops 5000).1 = (run engine3 c5ops 6000).1 ∧
    (run engine3 c5ops 5000).2 =
      [Output.focusState
        { activeScreenId := "D1", mode := FocusMode.auto, frozen := false,
          sequence := 0, timestampMs := 5000 }] ∧
    (run engine3 c5ops 6000).2 =
      [Output.focusState
        { activeScreenId := "D1", mode := FocusMode.auto, frozen := false,
          sequence := 0, timestampMs := 6000 }] ∧
    (run engine3 c5ops 5000).2 ≠ (run engine3 c5ops 6000).2 := by
  decide

/-- C6 counterexample: with an empty bounds map, attribution of a click
returns none and the signal is suppressed (no output), but the engine
state does change: `lastActivityTs` becomes the signal timestamp and the
click counter in `signalCounts` is incremented — contradicting the claim
that no engine state changes at all. -/
theorem c6_counterexample :
    attributeToScreen engineEmpty.displays (clickAt "D2" 1000) = none ∧
    (processSignal engineEmpty (clickAt "D2" 1000) 0).2 = [] ∧
    engineEmpty.state.lastActivityTs = 0 ∧
    (processSignal engineEmpty (clickAt "D2" 1000) 0).1.state.lastActivityTs = 1000 ∧
    getCount engineEmpty.metrics.signalCounts SignalType.click = 0 ∧
    getCount (processSignal engineEmpty (clickAt "D2" 1000) 0).1.metrics.signalCounts
      SignalType.click = 1 := by
  decide

/-- Claim C6 (amended): when attribution returns none (and no manual
override is pending a different screen), `processSignal` emits nothing and
changes no state except the two updates that precede attribution: the
signal counter and, for activity signals, `lastActivityTs`.  In particular
`candidateScreenId`, `candidateSinceTs`, `activeScreenId` and the other
metrics counters are untouched, and the call is a total function (never
throws). -/
theorem c6_attribution_failure_frame (a : FocusAlgorithm) (s : IntentSignal) (wc : ℤ)
    (hattr : attributeToScreen a.displays s = none)
    (hov : a.state.manualOverride = none ∨ a.state.manualOverride = a.state.activeScreenId) :
    processSignal a s wc = (trackSignal a s, []) ∧
    (trackSignal a s).state.candidateScreenId = a.state.candidateScreenId ∧
    (trackSignal a s).state.candidateSinceTs = a.state.candidateSinceTs ∧
    (trackSignal a s).state.activeScreenId = a.state.activeScreenId ∧
    (trackSignal a s).state.lastActivityTs =
      (if isActivitySignal s.type then s.timestampMs else a.state.lastActivityTs) ∧
    (trackSignal a s).metrics =
      { a.metrics with signalCounts := bumpCount a.metrics.signalCounts s.type } := by
  have key : ∀ a' outs, processSignal a s wc = (a', outs) →
      (a', outs) = (trackSignal a s, []) := by
    intro a' outs h
    unfold processSignal at h
    lift_lets at h
    extract_lets now a1 inCooldown a2 at h
    split at h
    · injection h with h1 h2
      subst h1
      subst h2
      rfl
    split at h
    · injection h with h1 h2
      subst h1
      subst h2
      rfl
    split at h
    case _ ov hoveq =>
      have hov' : a.state.manualOverride = some ov :=
        (trackSignal_override a s).symm.trans hoveq
      rcases hov with hnone | hsame
      · rw [hnone] at hov'
        cases hov'
      · split at h
        case isTrue hc =>
          rw [trackSignal_active a s, ← hsame, hov'] at hc
          exact absurd rfl hc
        case isFalse hc =>
          injection h with h1 h2
          subst h1
          subst h2
          rfl
    case _ hoveq =>
      split at h
      · injection h with h1 h2
        subst h1
        subst h2
        rfl
      case _ cand hcand =>
        rw [show a1.displays = a.displays from rfl, hattr] at hcand
        cases hcand
  refine ⟨key (processSignal a s wc).1 (processSignal a s wc).2 rfl, ?_, ?_,
    trackSignal_active a s, ?_, rfl⟩
  · unfold trackSignal
    split <;> rfl
  · unfold trackSignal
    split <;> rfl
  · unfold trackSignal
    split <;> rfl

/-- Witness for C6: the empty-display engine with a click at t = 1000. -/
theorem c6_attribution_failure_frame_witness :
    attributeToScreen engineEmpty.displays (clickAt "D2" 1000) = none ∧
    (engineEmpty.state.manualOverride = none ∨
      engineEmpty.state.manualOverride = engineEmpty.state.activeScreenId) ∧
    (processSignal engineEmpty (clickAt "D2" 1000) 77 =
        (trackSignal engineEmpty (clickAt "D2" 1000), []) ∧
      (trackSignal engineEmpty (clickAt "D2" 1000)).state.candidateScreenId =
        engineEmpty.state.candidateScreenId ∧
      (trackSignal engineEmpty (clickAt "D2" 1000)).state.candidateSinceTs =
        engineEmpty.state.candidateSinceTs ∧
      (trackSignal engineEmpty (clickAt "D2" 1000)).state.activeScreenId =
        engineEmpty.state.activeScreenId ∧
      (trackSignal engineEmpty (clickAt "D2" 1000)).state.lastActivityTs =
        (if isActivitySignal (clickAt "D2" 1000).type then (clickAt "D2" 1000).timestampMs
          else engineEmpty.state.lastActivityTs) ∧
      (trackSignal engineEmpty (clickAt "D2" 1000)).metrics =
        { engineEmpty.metrics with
            signalCounts := bumpCount engineEmpty.metrics.signalCounts (clickAt "D2" 1000).type }) :=
  ⟨by decide, Or.inl rfl,
    c6_attribution_failure_frame engineEmpty (clickAt "D2" 1000) 77 (by decide) (Or.inl rfl)⟩

/-- Claim C8: with default configuration and displays D1, D2, D3 the
sequence Click@D2,t=1000 / Click@D2,t=1400 / Click@D1,t=1500 /
Click@D1,t=1900 produces exactly one FocusChangeEvent (the t=1400 switch
to D2).  The t=1500 click computes confidence 0.80 (= 0.95 − 0.15, the
cooldown modifier, in hundredths) and the explicit cooldown penalty
subtracts another 0.15, giving 0.65 < 0.80 = switchThreshold; the t=1900
click sits at exactly lastSwitchTs + cooldownMs = 1400 + 500 and is still
penalized (cooldownBlocks reaches 2; the comparison is inclusive) and does
not switch — the active screen stays D2 and only one switch is counted. -/
theorem c8_cooldown_scenario :
    (run engine3 c8ops 0).2 =
      [Output.focusChange
        { sessionId := "session", screenId := "D2", reason := SignalType.click,
          confidence := 100, dwellMs := 400, sequence := 1, timestampMs := 1400 }] ∧
    computeConfidence c8mid.state c8mid.config (clickAt "D1" 1500) "D1" 1500 = 80 ∧
    baseConfidence SignalType.click - 15 = 80 ∧
    (80 : ℤ) - 15 = 65 ∧
    (65 : ℤ) < DEFAULT_FOCUS_CONFIG.switchThreshold ∧
    c8mid.state.lastSwitchTs = 1400 ∧
    (1900 : ℤ) - c8mid.state.lastSwitchTs = DEFAULT_FOCUS_CONFIG.cooldownMs ∧
    (run engine3 c8ops 0).1.metrics.cooldownBlocks = 2 ∧
    (run engine3 c8ops 0).1.metrics.focusChanges = 1 ∧
    (run engine3 c8ops 0).1.state.activeScreenId = some "D2" := by
  decide

/-- Claim C9: over any engine and any operation sequence, the sequence
fields of the emitted FocusChangeEvents are strictly increasing and the
first emitted event has sequence 1; and if the operations carry
non-decreasing timestamps then the emitted events' timestamps are
non-decreasing. -/
theorem c9_sequence_monotone (sid : String) (displays : List DisplayBounds)
    (patch : FocusConfigPatch) (ops : List Op) (wc : ℤ) :
    List.Chain' (· < ·)
      ((emittedFocusChanges (run (mkFocusAlgorithm sid displays patch) ops wc).2).map
        FocusChangeEvent.sequence) ∧
    (∀ e, (emittedFocusChanges (run (mkFocusAlgorithm sid displays patch) ops wc).2).head? =
        some e → e.sequence = 1) ∧
    (List.Chain' (· ≤ ·) (ops.map opTs) →
      List.Chain' (· ≤ ·)
        ((emittedFocusChanges (run (mkFocusAlgorithm sid displays patch) ops wc).2).map
          FocusChangeEvent.timestampMs)) := by
  have h0 : (mkFocusAlgorithm sid displays patch).state.sequence = 0 := rfl
  rcases run_seq ops (mkFocusAlgorithm sid displays patch) wc with ⟨hmap, _⟩
  rw [h0] at hmap
  refine ⟨?_, ?_, ?_⟩
  · rw [hmap]
    exact chain'_lt_range' _ _
  · intro e he
    rcases hevs : emittedFocusChanges (run (mkFocusAlgorithm sid displays patch) ops wc).2 with
      _ | ⟨e0, t⟩
    · rw [hevs] at he
      cases he
    · rw [hevs] at he hmap
      simp only [List.head?_cons, Option.some.injEq] at he
      subst he
      simp only [List.map_cons, List.length_cons, Nat.zero_add, List.range'_succ] at hmap
      exact (List.cons.injEq _ _ _ _ ▸ hmap).1
  · intro hops
    have hsub := run_ts_sublist ops (mkFocusAlgorithm sid displays patch) wc
    have hp : (ops.map opTs).Pairwise (· ≤ ·) := (List.chain'_iff_pairwise).mp hops
    exact (List.chain'_iff_pairwise).mpr (hp.sublist hsub)

/-- Witness for C9: the two-click scenario, whose operation timestamps are
non-decreasing. -/
theorem c9_sequence_monotone_witness :
    List.Chain' (· ≤ ·) (c1ops.map opTs) ∧
    List.Chain' (· < ·)
      ((emittedFocusChanges (run engine3 c1ops 0).2).map FocusChangeEvent.sequence) ∧
    (∀ e, (emittedFocusChanges (run engine3 c1ops 0).2).head? = some e → e.sequence = 1) ∧
    List.Chain' (· ≤ ·)
      ((emittedFocusChanges (run engine3 c1ops 0).2).map FocusChangeEvent.timestampMs) := by
  have hch : List.Chain' (· ≤ ·) (c1ops.map opTs) := by
    rw [show c1ops.map opTs = [(1000 : ℤ), 1400] from rfl]
    exact List.Chain'.cons (by norm_num) (List.chain'_singleton _)
  exact ⟨hch, (c9_sequence_monotone "session" [D1, D2, D3] {} c1ops 0).1,
    (c9_sequence_monotone "session" [D1, D2, D3] {} c1ops 0).2.1,
    (c9_sequence_monotone "session" [D1, D2, D3] {} c1ops 0).2.2 hch⟩

/-- Claim C10: `getState` never reports a null active screen — on an engine
built with an empty display list (internal `activeScreenId` null) and no
manual selection, it reports the literal string "screen_1", an identifier
not present in the engine's bounds map. -/
theorem c10_getstate_default_screen (wc : ℤ) :
    (getState engineEmpty wc).activeScreenId = "screen_1" ∧
    engineEmpty.state.activeScreenId = none ∧
    hasDisplay engineEmpty.displays "screen_1" = false :=
  ⟨rfl, rfl, rfl⟩


/-- C7 counterexample: with the single display D1 = (0,0,1920,1080), the
point (1920, 540) lies exactly at x = D1.x + D1.width; it is outside D1's
half-open rectangle, yet attribution returns D1 — via the proximity
fallback (distance 0) — so "a point at exactly x = bounds.x + width is not
attributed to that display" is false as stated. -/
theorem c7_counterexample :
    edgeSignal.x = D1.x + D1.width ∧
    containsPoint D1 edgeSignal.x edgeSignal.y = false ∧
    attributeToScreen [D1] edgeSignal = some "D1" := by
  decide

/-- Claim C7 (amended): for every signal without a pre-attributed known
screenId or applicable windowDisplayId, attribution on (x, y): returns
none exactly when the bounds map is empty; uses half-open rectangles, so a
point at exactly x = bounds.x + width is outside that display's rectangle
(though it can still win via the proximity fallback); returns the display
whose half-open rectangle contains the point when exactly one does; and
otherwise returns the display of highest proximity
1 / (1 + euclidean-distance-to-rectangle), ties broken by iteration order
of the bounds map (first display wins: strictly higher proximity than every
earlier display, at least as high as every later one). -/
theorem c7_attribution_spec (ds : List DisplayBounds) (s : IntentSignal)
    (h1 : (s.screenId != "" && hasDisplay ds s.screenId) = false)
    (h2 : (s.type == SignalType.windowFocus
        && (match s.windowDisplayId with
            | some w => w != "" && hasDisplay ds w
            | none => false)) = false) :
    (attributeToScreen ds s = none ↔ ds = []) ∧
    (∀ d : DisplayBounds, s.x = d.x + d.width → containsPoint d s.x s.y = false) ∧
    (∀ d ∈ ds, containsPoint d s.x s.y = true →
      (∀ e ∈ ds, containsPoint e s.x s.y = true → e.screenId = d.screenId) →
      attributeToScreen ds s = some d.screenId) ∧
    ((∀ e ∈ ds, containsPoint e s.x s.y = false) → ds ≠ [] →
      ∃ l1 w l2, ds = l1 ++ w :: l2 ∧ attributeToScreen ds s = some w.screenId ∧
        (∀ e ∈ l1, (1 : ℝ) / (1 + Real.sqrt ((rectDistSq e s.x s.y : ℤ) : ℝ)) <
          1 / (1 + Real.sqrt ((rectDistSq w s.x s.y : ℤ) : ℝ))) ∧
        (∀ e ∈ l2, (1 : ℝ) / (1 + Real.sqrt ((rectDistSq e s.x s.y : ℤ) : ℝ)) ≤
          1 / (1 + Real.sqrt ((rectDistSq w s.x s.y : ℤ) : ℝ)))) := by
  have hred : attributeToScreen ds s = pointerLoop s.x s.y ds none := by
    unfold attributeToScreen
    rw [h1, h2]
    simp
  refine ⟨?_, ?_, ?_, ?_⟩
  · rw [hred]
    constructor
    · intro hno
      cases ds with
      | nil => rfl
      | cons b rest =>
        rcases hb : containsPoint b s.x s.y with _ | _
        · rw [pointerLoop_cons_none s.x s.y b rest hb] at hno
          have := pointerLoop_isSome s.x s.y rest (b.screenId, rectDistSq b s.x s.y)
          rw [hno] at this
          cases this
        · rw [pointerLoop_cons_hit s.x s.y b rest none hb] at hno
          cases hno
    · intro hds
      subst hds
      rfl
  · intro d hxd
    unfold containsPoint
    rw [decide_eq_false_iff_not]
    intro hc
    rcases hc with ⟨_, hlt, _, _⟩
    omega
  · intro d hd hcont huniq
    rw [hred]
    exact pointerLoop_contains s.x s.y ds none d hd hcont huniq
  · intro hnc hne
    rcases pointerLoop_first_min s.x s.y ds hnc hne with ⟨l1, w, l2, hsp, heq, hl1, hl2⟩
    refine ⟨l1, w, l2, hsp, by rw [hred]; exact heq, ?_, ?_⟩
    · intro e he
      exact proxLt (rectDistSq_nonneg w s.x s.y) (hl1 e he)
    · intro e he
      exact proxLe (rectDistSq_nonneg w s.x s.y) (hl2 e he)

/-- Witness for C7: the displays D1, D2, D3 with a click carrying no
pre-attributed screen id. -/
theorem c7_attribution_spec_witness :
    ((bareClick 1000).screenId != "" && hasDisplay [D1, D2, D3] (bareClick 1000).screenId) = false ∧
    ((bareClick 1000).type == SignalType.windowFocus
        && (match (bareClick 1000).windowDisplayId with
            | some w => w != "" && hasDisplay [D1, D2, D3] w
            | none => false)) = false ∧
    (attributeToScreen [D1, D2, D3] (bareClick 1000) = none ↔
      [D1, D2, D3] = ([] : List DisplayBounds)) ∧
    (∀ d : DisplayBounds, (bareClick 1000).x = d.x + d.width →
      containsPoint d (bareClick 1000).x (bareClick 1000).y = false) ∧
    (∀ d ∈ [D1, D2, D3], containsPoint d (bareClick 1000).x (bareClick 1000).y = true →
      (∀ e ∈ [D1, D2, D3], containsPoint e (bareClick 1000).x (bareClick 1000).y = true →
        e.screenId = d.screenId) →
      attributeToScreen [D1, D2, D3] (bareClick 1000) = some d.screenId) ∧
    ((∀ e ∈ [D1, D2, D3], containsPoint e (bareClick 1000).x (bareClick 1000).y = false) →
      [D1, D2, D3] ≠ ([] : List DisplayBounds) →
      ∃ l1 w l2, [D1, D2, D3] = l1 ++ w :: l2 ∧
        attributeToScreen [D1, D2, D3] (bareClick 1000) = some w.screenId ∧
        (∀ e ∈ l1,
          (1 : ℝ) / (1 + Real.sqrt ((rectDistSq e (bareClick 1000).x (bareClick 1000).y : ℤ) : ℝ)) <
            1 / (1 + Real.sqrt ((rectDistSq w (bareClick 1000).x (bareClick 1000).y : ℤ) : ℝ))) ∧
        (∀ e ∈ l2,
          (1 : ℝ) / (1 + Real.sqrt ((rectDistSq e (bareClick 1000).x (bareClick 1000).y : ℤ) : ℝ)) ≤
            1 / (1 + Real.sqrt ((rectDistSq w (bareClick 1000).x (bareClick 1000).y : ℤ) : ℝ)))) := by
  refine ⟨by decide, by decide, ?_⟩
  exact c7_attribution_spec [D1, D2, D3] (bareClick 1000) (by decide) (by decide)

end Focus
